import Mathlib

/-!
# Verification of the Metal windowed-rendering demo

A shallow embedding of `src/bin/main.rs`: the setup phase (window, Metal
device, layer, shader library, render pipeline states, command queue,
vertex buffers) and the winit event-loop closure (control flow, the
per-frame command-encoding sequence, the animation state).  Machine
floats of the source are modelled as rationals with the cosine left as an
abstract function parameter; foreign calls that can fail are modelled by
an environment record saying which of them succeed.
-/

namespace MetalDemo

/-- `Rect` struct of the source (`x`, `y`, `w`, `h` are `f32`). -/
structure Rect where
  x : ℚ
  y : ℚ
  w : ℚ
  h : ℚ
  deriving DecidableEq, Repr

/-- `Color` struct of the source (`r`, `g`, `b`, `a` are `f32`). -/
structure Color where
  r : ℚ
  g : ℚ
  b : ℚ
  a : ℚ
  deriving DecidableEq, Repr

/-- `ClearRect` struct of the source. -/
structure ClearRect where
  rect : Rect
  color : Color
  deriving DecidableEq, Repr

/-- The two render pipeline states built in `main`. -/
inductive PipelineKind
  | triangle
  | clearRect
  deriving DecidableEq, Repr

/-- The two vertex buffers created in `main` (`vbuf` and `clear_rect_buffer`). -/
inductive BufId
  | vbuf
  | clearRectBuffer
  deriving DecidableEq, Repr

/-- `MTLPixelFormat` values used by the source. -/
inductive MTLPixelFormat
  | bgra8Unorm
  deriving DecidableEq, Repr

/-- `MTLBlendOperation` values used by the source. -/
inductive MTLBlendOperation
  | add
  deriving DecidableEq, Repr

/-- `MTLBlendFactor` values used by the source. -/
inductive MTLBlendFactor
  | sourceAlpha
  | oneMinusSourceAlpha
  deriving DecidableEq, Repr

/-- `MTLPrimitiveType` (Metal primitive topologies). -/
inductive MTLPrimitiveType
  | point
  | line
  | lineStrip
  | triangle
  | triangleStrip
  deriving DecidableEq, Repr

/-- The color-attachment / pipeline configuration that
`prepare_pipeline_state` sets on its `RenderPipelineDescriptor`, plus the
identity of the shader functions it looks up and the library they come
from. -/
structure RenderPipelineState where
  librarySource : String
  vertexFn : String
  fragmentFn : String
  pixelFormat : MTLPixelFormat
  blendingEnabled : Bool
  rgbBlendOperation : MTLBlendOperation
  alphaBlendOperation : MTLBlendOperation
  sourceRGBBlendFactor : MTLBlendFactor
  sourceAlphaBlendFactor : MTLBlendFactor
  destinationRGBBlendFactor : MTLBlendFactor
  destinationAlphaBlendFactor : MTLBlendFactor
  deriving DecidableEq, Repr

/-- Kinds of GPU/window objects the program creates, for counting where
each creation happens (setup vs. the per-frame path). -/
inductive ResourceKind
  | device
  | metalLayer
  | shaderLibrary
  | renderPipelineState (p : PipelineKind)
  | commandQueue
  | buffer (b : BufId)
  | commandBuffer
  | renderCommandEncoder
  deriving DecidableEq, Repr

/-- Environment of foreign calls made during setup: which of them
succeed, and what the filesystem returns. -/
structure SetupEnv where
  windowBuildOk : Bool
  hasSystemDefaultDevice : Bool
  readFile : String → Option String
  compileLibrary : String → Bool
  getFunctionOk : String → Bool
  newPipelineStateOk : Bool

/-- The errors `main` propagates with `?` before the event loop starts. -/
inductive SetupError
  | windowBuild
  | noDevice
  | shaderRead
  | libraryCompile
  deriving DecidableEq, Repr

/-- Fixed path the shader source is read from (`src/gpu/main.metal`). -/
def shaderPath : String := "src/gpu/main.metal"

/-- `prepare_pipeline_state`: looks up the vertex and fragment functions
in the library and builds a pipeline state whose color attachment is
BGRA8Unorm with alpha blending enabled.  The source unwraps the three
fallible calls (`get_function` twice, `new_render_pipeline_state`), so a
failure is a panic, modelled as `none`. -/
def prepare_pipeline_state (env : SetupEnv) (librarySource : String)
    (vertex_shader fragment_shader : String) : Option RenderPipelineState :=
  if env.getFunctionOk vertex_shader && env.getFunctionOk fragment_shader
      && env.newPipelineStateOk then
    some
      { librarySource := librarySource
        vertexFn := vertex_shader
        fragmentFn := fragment_shader
        pixelFormat := .bgra8Unorm
        blendingEnabled := true
        rgbBlendOperation := .add
        alphaBlendOperation := .add
        sourceRGBBlendFactor := .sourceAlpha
        sourceAlphaBlendFactor := .sourceAlpha
        destinationRGBBlendFactor := .oneMinusSourceAlpha
        destinationAlphaBlendFactor := .oneMinusSourceAlpha }
  else
    none

/-- Physical pixel size (winit `PhysicalSize<u32>`). -/
structure PhysicalSize where
  width : ℕ
  height : ℕ
  deriving DecidableEq, Repr

/-- The window configuration requested from `WindowBuilder`. -/
structure WindowConfig where
  innerSize : PhysicalSize
  resizable : Bool
  deriving DecidableEq, Repr

/-- `WindowBuilder::new().with_inner_size(LogicalSize::new(512, 512)).with_resizable(false)`. -/
def windowConfig : WindowConfig :=
  { innerSize := ⟨512, 512⟩, resizable := false }

/-- The initial contents of `vbuf` (line 117 of the source): three
vertices, each `x y r g b`. -/
def initialVertexData : List ℚ :=
  [0, 1/2, 1, 0, 0, -1/2, -1/2, 0, 1, 0, 1/2, 1/2, 0, 0, 1]

/-- The `vec![ClearRect { .. }]` built before the event loop: a single
full-NDC-square rect with opaque black color. -/
def clear_rect : List ClearRect :=
  [{ rect := { x := -1, y := -1, w := 2, h := 2 }
     color := { r := 0, g := 0, b := 0, a := 1 } }]

/-- The resource creations `main` performs before `event_loop.run`, in
source order: device (l.83), layer (l.85), library (l.103), triangle
pipeline (l.105), clear-rect pipeline (l.107), command queue (l.114),
`vbuf` (l.116), `clear_rect_buffer` (l.145). -/
def setupCreations : List ResourceKind :=
  [.device, .metalLayer, .shaderLibrary,
   .renderPipelineState .triangle, .renderPipelineState .clearRect,
   .commandQueue, .buffer .vbuf, .buffer .clearRectBuffer]

/-- Everything the setup phase hands to the event loop. -/
structure Resources where
  librarySource : String
  trianglePipeline : RenderPipelineState
  clearRectPipeline : RenderPipelineState
  initialVbuf : List ℚ
  clearRectData : List ClearRect
  creations : List ResourceKind
  window : WindowConfig
  deriving DecidableEq, Repr

/-- Outcome of the setup phase of `main`: success, an `Err` propagated
out of `main` with `?`, or a panic from an `unwrap`. -/
inductive SetupResult
  | ok (res : Resources)
  | err (e : SetupError)
  | panicked
  deriving DecidableEq, Repr

/-- `true` iff the result is an `Err` return out of `main`. -/
def SetupResult.isErr : SetupResult → Bool
  | .err _ => true
  | _ => false

/-- The setup phase of `main` (lines 76–149): build the window, take the
system-default device, attach the layer, read the shader source from
`shaderPath`, compile the library, build both pipeline states, the
queue and the two buffers.  `?`-propagated failures become `.err`;
`unwrap` failures inside `prepare_pipeline_state` become `.panicked`. -/
def setup (env : SetupEnv) : SetupResult :=
  if !env.windowBuildOk then .err .windowBuild
  else if !env.hasSystemDefaultDevice then .err .noDevice
  else
    match env.readFile shaderPath with
    | none => .err .shaderRead
    | some source =>
      if !env.compileLibrary source then .err .libraryCompile
      else
        match prepare_pipeline_state env source "triangle_vertex" "triangle_fragment" with
        | none => .panicked
        | some tri =>
          match prepare_pipeline_state env source "clear_rect_vertex" "clear_rect_fragment" with
          | none => .panicked
          | some cr =>
            .ok
              { librarySource := source
                trianglePipeline := tri
                clearRectPipeline := cr
                initialVbuf := initialVertexData
                clearRectData := clear_rect
                creations := setupCreations
                window := windowConfig }

/-- winit `ControlFlow` values the closure assigns (it writes `Poll` at
the top of every call and `Exit` in the close/escape arm). -/
inductive ControlFlow
  | poll
  | exit
  deriving DecidableEq, Repr

/-- winit `ElementState`. -/
inductive ElementState
  | pressed
  | released
  deriving DecidableEq, Repr

/-- winit `VirtualKeyCode`, with the only key the source distinguishes
kept symbolic and all others carried by their scancode. -/
inductive VirtualKeyCode
  | escape
  | otherKey (code : ℕ)
  deriving DecidableEq, Repr

/-- winit `KeyboardInput` (the fields the source matches on). -/
structure KeyboardInput where
  state : ElementState
  virtual_keycode : Option VirtualKeyCode
  deriving DecidableEq, Repr

/-- winit `WindowEvent` restricted to the arms the source distinguishes;
every other window event is `otherWindowEvent` (the `_ => ()` arm). -/
inductive WindowEvent
  | closeRequested
  | keyboardInput (input : KeyboardInput)
  | resized (size : PhysicalSize)
  | otherWindowEvent
  deriving DecidableEq, Repr

/-- winit `Event` restricted to the arms the source distinguishes; every
other event is `otherEvent` (the outer `_ => ()` arm). -/
inductive Event
  | windowEvent (event : WindowEvent) (window_id : ℕ)
  | mainEventsCleared
  | redrawRequested
  | otherEvent
  deriving DecidableEq, Repr

/-- Mutable state the closure owns across frames: the animation phase
`r`, the CPU-visible contents of `vbuf`, the window's inner size as
winit tracks it, and the Metal layer's drawable size. -/
structure AppState where
  r : ℚ
  vbufContents : List ℚ
  windowInnerSize : PhysicalSize
  drawableSize : PhysicalSize
  deriving DecidableEq, Repr

/-- State at entry to the event loop: `r = 0`, `vbuf` holds
`initialVertexData`, and the layer's drawable size was just set from the
window's inner size `w` (lines 97–100). -/
def initialState (w : PhysicalSize) : AppState :=
  { r := 0, vbufContents := initialVertexData, windowInnerSize := w, drawableSize := w }

/-- Render-encoder / command-buffer calls the per-frame path issues, in
the order it issues them. -/
inductive Cmd
  | setScissorRect (x y width height : ℕ)
  | setRenderPipelineState (p : PipelineKind)
  | setVertexBuffer (index : ℕ) (buffer : Option BufId) (offset : ℕ)
  | drawPrimitivesInstanced (t : MTLPrimitiveType) (vertexStart vertexCount instanceCount : ℕ)
  | drawPrimitives (t : MTLPrimitiveType) (vertexStart vertexCount : ℕ)
  | endEncoding
  | presentDrawable
  | commit
  deriving DecidableEq, Repr

/-- Observable effects of one call of the event-loop closure. -/
structure Effects where
  controlFlow : ControlFlow
  creations : List ResourceKind
  commands : List Cmd
  requestedRedraw : Bool
  deriving DecidableEq, Repr

/-- Effects of an arm that only leaves the `Poll` written at the top. -/
def pollEffects : Effects :=
  { controlFlow := .poll, creations := [], commands := [], requestedRedraw := false }

/-- The vertex data the `RedrawRequested` arm writes into `vbuf` each
frame (lines 177–193); `cosr` stands for `r.cos()`. -/
def frameVertexData (cosr : ℚ) : List ℚ :=
  [0, 1/2, 1, 0, 0,
   -1/2 + (cosr / 2 + 1/2), -1/2, 0, 1, 0,
   1/2 - (cosr / 2 + 1/2), -1/2, 0, 0, 1]

/-- The encoder/command-buffer calls of the `RedrawRequested` arm (lines
220–243), in source order, as a function of the window's inner size. -/
def redrawCommands (innerSize : PhysicalSize) : List Cmd :=
  [.setScissorRect 20 20 100 100,
   .setRenderPipelineState .clearRect,
   .setVertexBuffer 0 (some .clearRectBuffer) 0,
   .drawPrimitivesInstanced .triangleStrip 0 4 1,
   .setScissorRect 0 0 innerSize.width innerSize.height,
   .setRenderPipelineState .triangle,
   .setVertexBuffer 0 (some .vbuf) 0,
   .drawPrimitives .triangle 0 3,
   .endEncoding,
   .presentDrawable,
   .commit]

/-- One call of the event-loop closure (lines 151–249).  `cos` stands
for `f32::cos`, `drawableAvailable` for whether `layer.next_drawable()`
returns `Some`, `myWindowId` for `window.id()`. -/
def handleEvent (cos : ℚ → ℚ) (drawableAvailable : Bool) (myWindowId : ℕ)
    (s : AppState) (e : Event) : AppState × Effects :=
  match e with
  | .windowEvent we wid =>
    if wid = myWindowId then
      match we with
      | .closeRequested =>
        (s, { pollEffects with controlFlow := .exit })
      | .keyboardInput input =>
        match input.state, input.virtual_keycode with
        | .pressed, some .escape => (s, { pollEffects with controlFlow := .exit })
        | _, _ => (s, pollEffects)
      | .resized size =>
        ({ s with windowInnerSize := size, drawableSize := size }, pollEffects)
      | .otherWindowEvent => (s, pollEffects)
    else
      (s, pollEffects)
  | .mainEventsCleared =>
    (s, { pollEffects with requestedRedraw := true })
  | .redrawRequested =>
    let s1 := { s with vbufContents := frameVertexData (cos s.r) }
    if drawableAvailable then
      ({ s1 with r := s.r + 1/100 },
       { controlFlow := .poll
         creations := [.commandBuffer, .renderCommandEncoder]
         commands := redrawCommands s.windowInnerSize
         requestedRedraw := false })
    else
      (s1, pollEffects)
  | .otherEvent => (s, pollEffects)

/-- Modelled from the spec: the second demo binary of the repository is
not under `src/`.  Per the spec it "dispatches a compute kernel that
writes directly into the window's presentable surface"; its per-frame
commands are modelled as binding a compute pipeline and the drawable's
texture, dispatching the kernel, then presenting and committing. -/
inductive ComputeCmd
  | setComputePipelineState
  | setDrawableTexture
  | dispatchCompute
  | endEncoding
  | presentDrawable
  | commit
  deriving DecidableEq, Repr

/-- Modelled from the spec: the per-frame command sequence of the
compute demo binary that is absent from `src/`. -/
def computeDemoFrameCommands : List ComputeCmd :=
  [.setComputePipelineState, .setDrawableTexture, .dispatchCompute,
   .endEncoding, .presentDrawable, .commit]

/-- Color triple `[r, g, b]` of vertex `i` in an `x y r g b`-stride
vertex list like `vertex_data`. -/
def vertexColor (l : List ℚ) (i : ℕ) : List ℚ :=
  [l.getD (5 * i + 2) 0, l.getD (5 * i + 3) 0, l.getD (5 * i + 4) 0]

/-- Environment in which every foreign setup call succeeds and the
shader file at `shaderPath` holds the source text `"shader"`. -/
def envAllOk : SetupEnv :=
  { windowBuildOk := true
    hasSystemDefaultDevice := true
    readFile := fun p => if p = shaderPath then some "shader" else none
    compileLibrary := fun _ => true
    getFunctionOk := fun _ => true
    newPipelineStateOk := true }

/-- `envAllOk`, except window creation fails. -/
def envWindowFail : SetupEnv := { envAllOk with windowBuildOk := false }

/-- `envAllOk`, except there is no system-default Metal device. -/
def envNoDevice : SetupEnv := { envAllOk with hasSystemDefaultDevice := false }

/-- `envAllOk`, except no file is readable. -/
def envReadFail : SetupEnv := { envAllOk with readFile := fun _ => none }

/-- `envAllOk`, except the shader library fails to compile. -/
def envCompileFail : SetupEnv := { envAllOk with compileLibrary := fun _ => false }

/-- `envAllOk`, except `new_render_pipeline_state` fails. -/
def envPipelineFail : SetupEnv := { envAllOk with newPipelineStateOk := false }

/-- The pipeline state `prepare_pipeline_state` yields under `envAllOk`. -/
def pipelineAllOk (vs fs : String) : RenderPipelineState :=
  { librarySource := "shader"
    vertexFn := vs
    fragmentFn := fs
    pixelFormat := .bgra8Unorm
    blendingEnabled := true
    rgbBlendOperation := .add
    alphaBlendOperation := .add
    sourceRGBBlendFactor := .sourceAlpha
    sourceAlphaBlendFactor := .sourceAlpha
    destinationRGBBlendFactor := .oneMinusSourceAlpha
    destinationAlphaBlendFactor := .oneMinusSourceAlpha }

/-- The resources `setup` yields under `envAllOk`. -/
def resAllOk : Resources :=
  { librarySource := "shader"
    trianglePipeline := pipelineAllOk "triangle_vertex" "triangle_fragment"
    clearRectPipeline := pipelineAllOk "clear_rect_vertex" "clear_rect_fragment"
    initialVbuf := initialVertexData
    clearRectData := clear_rect
    creations := setupCreations
    window := windowConfig }

/-- Case split for the per-frame resource creations: every call of the
closure creates either nothing or exactly a command buffer followed by
a render command encoder. -/
theorem handleEvent_creations_cases (cos : ℚ → ℚ) (d : Bool) (wid : ℕ)
    (s : AppState) (e : Event) :
    (handleEvent cos d wid s e).2.creations = [] ∨
    (handleEvent cos d wid s e).2.creations =
      [ResourceKind.commandBuffer, ResourceKind.renderCommandEncoder] := by
  rcases e with ⟨we, wid'⟩ | _ | _ | _
  · by_cases h : wid' = wid
    · rcases we with _ | ⟨st, key⟩ | sz | _
      · left; simp [handleEvent, h, pollEffects]
      · rcases st with _ | _ <;> rcases key with _ | (_ | code) <;>
          (left; simp [handleEvent, h, pollEffects])
      · left; simp [handleEvent, h, pollEffects]
      · left; simp [handleEvent, h, pollEffects]
    · left; simp [handleEvent, h, pollEffects]
  · left; rfl
  · rcases d with _ | _
    · left; rfl
    · right; rfl
  · left; rfl

/-- C1: The repository contains two demo programs: one that draws a
colored triangle plus a scissor-clipped clear rectangle using a
vertex/fragment rasterization pipeline, and another that dispatches a
compute kernel writing directly into the window's presentable surface
(the latter modelled from the spec, its binary being absent from
`src/`). -/
theorem C1_two_demo_programs :
    (∀ sz : PhysicalSize,
      Cmd.setRenderPipelineState .triangle ∈ redrawCommands sz ∧
      Cmd.drawPrimitives .triangle 0 3 ∈ redrawCommands sz ∧
      Cmd.setScissorRect 20 20 100 100 ∈ redrawCommands sz ∧
      Cmd.setRenderPipelineState .clearRect ∈ redrawCommands sz ∧
      Cmd.drawPrimitivesInstanced .triangleStrip 0 4 1 ∈ redrawCommands sz) ∧
    ComputeCmd.setComputePipelineState ∈ computeDemoFrameCommands ∧
    ComputeCmd.setDrawableTexture ∈ computeDemoFrameCommands ∧
    ComputeCmd.dispatchCompute ∈ computeDemoFrameCommands ∧
    ComputeCmd.presentDrawable ∈ computeDemoFrameCommands := by
  refine ⟨fun sz => ?_, ?_, ?_, ?_, ?_⟩ <;>
    simp [redrawCommands, computeDemoFrameCommands]

/-- C2: On every `RedrawRequested` event in which a drawable is
obtained, the closure encodes one fixed linear command sequence —
scissor (20,20,100,100), clear-rect pipeline, clear-rect draw, scissor
to the full window size, triangle pipeline, triangle draw, end
encoding, present, commit — independent of the animation state and the
cosine function, so no conditional branching occurs. -/
theorem C2_fixed_encoding_order (cos : ℚ → ℚ) (wid : ℕ) (s : AppState) :
    (handleEvent cos true wid s .redrawRequested).2.commands =
      [Cmd.setScissorRect 20 20 100 100,
       Cmd.setRenderPipelineState .clearRect,
       Cmd.setVertexBuffer 0 (some .clearRectBuffer) 0,
       Cmd.drawPrimitivesInstanced .triangleStrip 0 4 1,
       Cmd.setScissorRect 0 0 s.windowInnerSize.width s.windowInnerSize.height,
       Cmd.setRenderPipelineState .triangle,
       Cmd.setVertexBuffer 0 (some .vbuf) 0,
       Cmd.drawPrimitives .triangle 0 3,
       Cmd.endEncoding,
       Cmd.presentDrawable,
       Cmd.commit] := rfl

/-- C6: The clear rectangle is drawn under a scissor rect of origin
(20,20) and size 100×100, as a 4-vertex triangle strip with exactly one
instance, from a buffer holding a single `ClearRect` covering the full
NDC square with opaque black color. -/
theorem C6_clear_rect_draw (cos : ℚ → ℚ) (wid : ℕ) (s : AppState) :
    clear_rect.length = 1 ∧
    clear_rect = [{ rect := { x := -1, y := -1, w := 2, h := 2 }
                    color := { r := 0, g := 0, b := 0, a := 1 } }] ∧
    ((handleEvent cos true wid s .redrawRequested).2.commands.take 4 =
      [Cmd.setScissorRect 20 20 100 100,
       Cmd.setRenderPipelineState .clearRect,
       Cmd.setVertexBuffer 0 (some .clearRectBuffer) 0,
       Cmd.drawPrimitivesInstanced .triangleStrip 0 4 1]) :=
  ⟨rfl, rfl, rfl⟩

/-- C9: On a `RedrawRequested` event with no drawable, the handler
returns early: no command buffer or encoder is created, no commands are
issued, and `r` is unchanged — but the shared vertex buffer has already
been overwritten with that frame's vertex data; by contrast, with a
drawable, `r` advances by 0.01. -/
theorem C9_no_drawable_early_return (cos : ℚ → ℚ) (wid : ℕ) (s : AppState) :
    (handleEvent cos false wid s .redrawRequested).1.r = s.r ∧
    (handleEvent cos false wid s .redrawRequested).2.creations = [] ∧
    (handleEvent cos false wid s .redrawRequested).2.commands = [] ∧
    (handleEvent cos false wid s .redrawRequested).1.vbufContents =
      frameVertexData (cos s.r) ∧
    (handleEvent cos true wid s .redrawRequested).1.r = s.r + 1 / 100 :=
  ⟨rfl, rfl, rfl, rfl, rfl⟩

/-- C10: The window is requested non-resizable with inner size 512×512;
the layer's drawable size equals the window's inner size at entry to
the event loop, and every `Resized` event for this window sets both the
tracked inner size and the drawable size to the new size. -/
theorem C10_drawable_size_tracks_inner_size :
    windowConfig.resizable = false ∧
    windowConfig.innerSize = ⟨512, 512⟩ ∧
    (∀ w : PhysicalSize, (initialState w).drawableSize = (initialState w).windowInnerSize) ∧
    (∀ (cos : ℚ → ℚ) (d : Bool) (wid : ℕ) (s : AppState) (size : PhysicalSize),
      (handleEvent cos d wid s (.windowEvent (.resized size) wid)).1.drawableSize = size ∧
      (handleEvent cos d wid s (.windowEvent (.resized size) wid)).1.windowInnerSize = size) := by
  refine ⟨rfl, rfl, fun w => rfl, fun cos d wid s size => ?_⟩
  simp [handleEvent]

/-- C3: The device, Metal layer, shader library, both render pipeline
states, the command queue and both vertex buffers are each created
exactly once in the setup phase, and every call of the event-loop
closure creates nothing but per-frame command buffers and render
command encoders. -/
theorem C3_setup_once_per_frame_transient :
    (setupCreations.count .device = 1 ∧
     setupCreations.count .metalLayer = 1 ∧
     setupCreations.count .shaderLibrary = 1 ∧
     setupCreations.count (.renderPipelineState .triangle) = 1 ∧
     setupCreations.count (.renderPipelineState .clearRect) = 1 ∧
     setupCreations.count .commandQueue = 1 ∧
     setupCreations.count (.buffer .vbuf) = 1 ∧
     setupCreations.count (.buffer .clearRectBuffer) = 1) ∧
    (∀ (cos : ℚ → ℚ) (d : Bool) (wid : ℕ) (s : AppState) (e : Event),
      ((handleEvent cos d wid s e).2.creations.all fun c =>
        c == ResourceKind.commandBuffer || c == ResourceKind.renderCommandEncoder) = true) := by
  refine ⟨by decide, fun cos d wid s e => ?_⟩
  rcases handleEvent_creations_cases cos d wid s e with h | h <;> rw [h] <;> rfl

/-- C4 counterexample: when everything up to pipeline-state creation
succeeds but `new_render_pipeline_state` fails, `main` panics (the
source unwraps it) instead of returning an `Err`. -/
theorem C4_pipeline_failure_panics_not_err :
    setup envPipelineFail = .panicked ∧ (setup envPipelineFail).isErr = false :=
  ⟨rfl, rfl⟩

/-- C4 (amended): window-creation failure, a missing system-default
device, an unreadable shader source file, and a failing library compile
each propagate out of `main` as an `Err` return; a pipeline-state
creation failure instead terminates the program by panic (`unwrap`); in
no case is there retry or recovery. -/
theorem C4_amended_setup_failures_terminate (env : SetupEnv) :
    (env.windowBuildOk = false → setup env = .err .windowBuild) ∧
    (env.windowBuildOk = true → env.hasSystemDefaultDevice = false →
      setup env = .err .noDevice) ∧
    (env.windowBuildOk = true → env.hasSystemDefaultDevice = true →
      env.readFile shaderPath = none → setup env = .err .shaderRead) ∧
    (∀ source, env.windowBuildOk = true → env.hasSystemDefaultDevice = true →
      env.readFile shaderPath = some source → env.compileLibrary source = false →
      setup env = .err .libraryCompile) ∧
    (∀ source, env.windowBuildOk = true → env.hasSystemDefaultDevice = true →
      env.readFile shaderPath = some source → env.compileLibrary source = true →
      (prepare_pipeline_state env source "triangle_vertex" "triangle_fragment" = none ∨
       prepare_pipeline_state env source "clear_rect_vertex" "clear_rect_fragment" = none) →
      setup env = .panicked) := by
  refine ⟨?_, ?_, ?_, ?_, ?_⟩
  · intro h1
    simp [setup, h1]
  · intro h1 h2
    simp [setup, h1, h2]
  · intro h1 h2 h3
    simp [setup, h1, h2, h3]
  · intro source h1 h2 h3 h4
    simp [setup, h1, h2, h3, h4]
  · intro source h1 h2 h3 h4 h5
    rcases h5 with h5 | h5
    · simp [setup, h1, h2, h3, h4, h5]
    · cases htri : prepare_pipeline_state env source "triangle_vertex" "triangle_fragment" with
      | none => simp [setup, h1, h2, h3, h4, htri]
      | some tri => simp [setup, h1, h2, h3, h4, htri, h5]

/-- Witness for the amended C4: each failure mode realised in a
concrete environment. -/
theorem C4_amended_setup_failures_terminate_witness :
    setup envWindowFail = .err .windowBuild ∧
    setup envNoDevice = .err .noDevice ∧
    setup envReadFail = .err .shaderRead ∧
    setup envCompileFail = .err .libraryCompile ∧
    setup envPipelineFail = .panicked :=
  ⟨(C4_amended_setup_failures_terminate envWindowFail).1 rfl,
   (C4_amended_setup_failures_terminate envNoDevice).2.1 rfl rfl,
   (C4_amended_setup_failures_terminate envReadFail).2.2.1 rfl rfl rfl,
   (C4_amended_setup_failures_terminate envCompileFail).2.2.2.1 "shader" rfl rfl rfl rfl,
   (C4_amended_setup_failures_terminate envPipelineFail).2.2.2.2 "shader" rfl rfl rfl rfl
     (Or.inl rfl)⟩

/-- C5: Whenever setup succeeds, the shader library was compiled from
the text read from the fixed path `src/gpu/main.metal`, and both render
pipeline states were built from the named vertex/fragment functions of
that one library. -/
theorem C5_library_from_fixed_path (env : SetupEnv) (res : Resources)
    (h : setup env = .ok res) :
    env.readFile shaderPath = some res.librarySource ∧
    env.compileLibrary res.librarySource = true ∧
    res.trianglePipeline.librarySource = res.librarySource ∧
    res.clearRectPipeline.librarySource = res.librarySource ∧
    res.trianglePipeline.vertexFn = "triangle_vertex" ∧
    res.trianglePipeline.fragmentFn = "triangle_fragment" ∧
    res.clearRectPipeline.vertexFn = "clear_rect_vertex" ∧
    res.clearRectPipeline.fragmentFn = "clear_rect_fragment" := by
  unfold setup at h
  split at h
  · simp at h
  split at h
  · simp at h
  split at h
  · simp at h
  next source heqread =>
    split at h
    · simp at h
    next heqcompile =>
      split at h
      · simp at h
      next tri heqtri =>
        split at h
        · simp at h
        next cr heqcr =>
          injection h with h
          subst h
          unfold prepare_pipeline_state at heqtri heqcr
          split at heqtri
          · injection heqtri with heqtri
            subst heqtri
            split at heqcr
            · injection heqcr with heqcr
              subst heqcr
              refine ⟨heqread, ?_, rfl, rfl, rfl, rfl, rfl, rfl⟩
              simpa using heqcompile
            · simp at heqcr
          · simp at heqtri

/-- Closed instance of `C5_library_from_fixed_path` at the concrete
all-succeeding environment. -/
theorem C5_library_from_fixed_path_witness :
    envAllOk.readFile shaderPath = some resAllOk.librarySource ∧
    envAllOk.compileLibrary resAllOk.librarySource = true ∧
    resAllOk.trianglePipeline.librarySource = resAllOk.librarySource ∧
    resAllOk.clearRectPipeline.librarySource = resAllOk.librarySource ∧
    resAllOk.trianglePipeline.vertexFn = "triangle_vertex" ∧
    resAllOk.trianglePipeline.fragmentFn = "triangle_fragment" ∧
    resAllOk.clearRectPipeline.vertexFn = "clear_rect_vertex" ∧
    resAllOk.clearRectPipeline.fragmentFn = "clear_rect_fragment" :=
  C5_library_from_fixed_path envAllOk resAllOk rfl

/-- C7: Whenever setup succeeds, the triangle is drawn through a
vertex/fragment pipeline whose color attachment is BGRA8Unorm with
alpha blending enabled, as exactly 3 vertices of primitive type
Triangle, and in every frame's vertex data the per-vertex colors are
red, green and blue. -/
theorem C7_triangle_pipeline_and_colors (env : SetupEnv) (res : Resources)
    (h : setup env = .ok res) :
    res.trianglePipeline.pixelFormat = .bgra8Unorm ∧
    res.trianglePipeline.blendingEnabled = true ∧
    (∀ cosr : ℚ,
      vertexColor (frameVertexData cosr) 0 = [1, 0, 0] ∧
      vertexColor (frameVertexData cosr) 1 = [0, 1, 0] ∧
      vertexColor (frameVertexData cosr) 2 = [0, 0, 1]) ∧
    (∀ (cos : ℚ → ℚ) (wid : ℕ) (s : AppState),
      (handleEvent cos true wid s .redrawRequested).2.commands.drop 5 =
        [Cmd.setRenderPipelineState .triangle,
         Cmd.setVertexBuffer 0 (some .vbuf) 0,
         Cmd.drawPrimitives .triangle 0 3,
         Cmd.endEncoding,
         Cmd.presentDrawable,
         Cmd.commit]) := by
  refine ⟨?_, ?_, fun cosr => ⟨rfl, rfl, rfl⟩, fun cos wid s => rfl⟩ <;>
  · unfold setup at h
    split at h
    · simp at h
    split at h
    · simp at h
    split at h
    · simp at h
    next source heqread =>
      split at h
      · simp at h
      next heqcompile =>
        split at h
        · simp at h
        next tri heqtri =>
          split at h
          · simp at h
          next cr heqcr =>
            injection h with h
            subst h
            unfold prepare_pipeline_state at heqtri
            split at heqtri
            · injection heqtri with heqtri
              subst heqtri
              rfl
            · simp at heqtri

/-- Closed instance of `C7_triangle_pipeline_and_colors` at the
concrete all-succeeding environment and `cosr = 1`. -/
theorem C7_triangle_pipeline_and_colors_witness :
    resAllOk.trianglePipeline.pixelFormat = .bgra8Unorm ∧
    resAllOk.trianglePipeline.blendingEnabled = true ∧
    vertexColor (frameVertexData 1) 0 = [1, 0, 0] ∧
    vertexColor (frameVertexData 1) 1 = [0, 1, 0] ∧
    vertexColor (frameVertexData 1) 2 = [0, 0, 1] :=
  ⟨(C7_triangle_pipeline_and_colors envAllOk resAllOk rfl).1,
   (C7_triangle_pipeline_and_colors envAllOk resAllOk rfl).2.1,
   ((C7_triangle_pipeline_and_colors envAllOk resAllOk rfl).2.2.1 1).1,
   ((C7_triangle_pipeline_and_colors envAllOk resAllOk rfl).2.2.1 1).2.1,
   ((C7_triangle_pipeline_and_colors envAllOk resAllOk rfl).2.2.1 1).2.2⟩

/-- C8: The closure sets the control flow to `Exit` exactly on a
`CloseRequested` event for this window or a keyboard event for this
window with state `Pressed` and virtual keycode `Escape`; on every
other event the control flow it writes is `Poll`. -/
theorem C8_exit_only_on_close_or_escape (cos : ℚ → ℚ) (d : Bool) (wid : ℕ)
    (s : AppState) (e : Event) :
    ((handleEvent cos d wid s e).2.controlFlow = .exit ↔
      (e = .windowEvent .closeRequested wid ∨
       ∃ input, e = .windowEvent (.keyboardInput input) wid ∧
         input.state = .pressed ∧ input.virtual_keycode = some .escape)) ∧
    ((handleEvent cos d wid s e).2.controlFlow = .poll ∨
     (handleEvent cos d wid s e).2.controlFlow = .exit) := by
  constructor
  · rcases e with ⟨we, wid'⟩ | _ | _ | _
    · by_cases h : wid' = wid
      · subst h
        rcases we with _ | ⟨st, key⟩ | sz | _
        · simp [handleEvent]
        · rcases st with _ | _ <;> rcases key with _ | (_ | code) <;>
            simp [handleEvent, pollEffects]
        · simp [handleEvent, pollEffects]
        · simp [handleEvent, pollEffects]
      · simp [handleEvent, pollEffects, h, Ne.symm h]
    · simp [handleEvent, pollEffects]
    · rcases d with _ | _ <;> simp [handleEvent, pollEffects]
    · simp [handleEvent, pollEffects]
  · cases hcf : (handleEvent cos d wid s e).2.controlFlow
    · exact Or.inl rfl
    · exact Or.inr rfl

end MetalDemo
